import Mathlib

attribute [local semireducible] Rat.mul Rat.add Rat.sub Rat.inv

/-!
Shallow embedding of the TRManus forex trading engine
(src/trading_engine.py, src/trading_engine_simple.py, src/trading_simple.py).

Conventions of the embedding:
* Python floats are modelled as exact rationals (ℚ); decimal literals such as
  0.98 are written 98/100.
* A pandas Series value that may be NaN (a rolling window that has not filled
  yet) is modelled as an Option ℚ, with `none` standing for NaN; comparisons
  against NaN are false, exactly as in pandas, see optLe / optLt below.
* The rolling standard deviation used by the Bollinger bands is irrational in
  general, so the two band comparisons are carried out on squares of rational
  numbers; the lemmas below_lower_band_iff / above_upper_band_iff prove that
  this decidable encoding coincides with the real-number comparison against
  middle ± 2·sqrt(variance).
* Python dicts used as signals are modelled by a structure of Option fields:
  a key that may be absent is an Option, `none` meaning the key is missing.
* datetime.now() is modelled by an explicit clock argument `now : Nat`.
-/

/-- One row of the price DataFrame: the High / Low / Close columns used by the
strategies in src/trading_engine.py. -/
structure Bar where
  high : ℚ
  low : ℚ
  close : ℚ
deriving DecidableEq

/-- A signal dict as produced by the strategies and consumed by
RiskManager.validate_trade and ForexTradingRobot.execute_trade.  Fields that a
given dict may lack are Options (`none` = key absent). -/
structure Signal where
  signal : Option String := none
  confidence : Option ℚ := none
  reason : Option String := none
  entry_price : Option ℚ := none
  stop_loss : Option ℚ := none
  take_profit : Option ℚ := none
  symbol : String := ""
  strategy : String := ""
deriving DecidableEq

/-- The trade dict built by execute_trade and mutated by close_trade. -/
structure Trade where
  id : Nat
  symbol : String
  strategy : String
  signal_type : String
  entry_price : ℚ
  stop_loss : ℚ
  take_profit : Option ℚ
  position_size : ℚ
  entry_time : Nat
  status : String
  exit_price : Option ℚ := none
  exit_time : Option Nat := none
  pnl : Option ℚ := none
  close_reason : Option String := none
deriving DecidableEq

/-- RiskManager / SimpleRiskManager state; the defaults are the constructor
defaults of both classes (max_risk_per_trade=0.02, max_daily_loss=0.05,
daily_pnl=0, account_balance=10000). -/
structure RiskManager where
  max_risk_per_trade : ℚ := 2 / 100
  max_daily_loss : ℚ := 5 / 100
  daily_pnl : ℚ := 0
  account_balance : ℚ := 10000
deriving DecidableEq

/-- The mutable state of ForexTradingRobot / SimpleForexTradingRobot: the risk
manager plus the active_trades and trade_history lists (both start empty). -/
structure Robot where
  risk_manager : RiskManager := {}
  active_trades : List Trade := []
  trade_history : List Trade := []
deriving DecidableEq

/-- The HOLD dict returned by every strategy:
  { "signal": "HOLD", "confidence": 0, "reason": reason }. -/
def holdSignal (reason : String) : Signal :=
  { signal := some "HOLD", confidence := some 0, reason := some reason }

/-- The gains series of the rsi loop: for i in 1..n-1,
gains[i-1] = change if change > 0 else 0 where change = prices[i]-prices[i-1]. -/
def gainsOf : List ℚ → List ℚ
  | a :: b :: rest => (if 0 < b - a then b - a else 0) :: gainsOf (b :: rest)
  | _ => []

/-- The losses series of the rsi loop: for i in 1..n-1,
losses[i-1] = 0 if change > 0 else abs(change). -/
def lossesOf : List ℚ → List ℚ
  | a :: b :: rest => (if 0 < b - a then 0 else |b - a|) :: lossesOf (b :: rest)
  | _ => []

/-- pandas `series.rolling(window=window).mean()` evaluated at index `i`:
the mean of entries i+1-window .. i when the window is full, NaN otherwise. -/
def rolling_mean_at (xs : List ℚ) (window : Nat) (i : Nat) : Option ℚ :=
  if window ≤ i + 1 ∧ i < xs.length then
    some (((xs.take (i + 1)).drop (i + 1 - window)).sum / (window : ℚ))
  else none

/-- The square of pandas `series.rolling(window).std()` (sample standard
deviation, ddof=1) at index `i`; carried as a rational variance so that the
comparisons against the Bollinger bands stay decidable. -/
def rolling_var_at (xs : List ℚ) (window : Nat) (i : Nat) : Option ℚ :=
  match rolling_mean_at xs window i with
  | none => none
  | some m =>
      some ((((xs.take (i + 1)).drop (i + 1 - window)).map
        (fun x => (x - m) ^ 2)).sum / ((window - 1 : Nat) : ℚ))

/-- pandas `a <= b` where either side may be NaN (NaN comparisons are False). -/
def optLe : Option ℚ → Option ℚ → Bool
  | some a, some b => decide (a ≤ b)
  | _, _ => false

/-- pandas `a < b` where either side may be NaN. -/
def optLt : Option ℚ → Option ℚ → Bool
  | some a, some b => decide (a < b)
  | _, _ => false

/-- pandas `a < c` for a possibly-NaN left operand and a literal. -/
def optLtQ : Option ℚ → ℚ → Bool
  | some a, c => decide (a < c)
  | none, _ => false

/-- pandas `a > c` for a possibly-NaN left operand and a literal. -/
def optGtQ : Option ℚ → ℚ → Bool
  | some a, c => decide (c < a)
  | none, _ => false

/-- Python's `max()` over a list (the guard makes the list nonempty). -/
def listMax : List ℚ → ℚ
  | [] => 0
  | x :: xs => xs.foldl max x

/-- Python's `min()` over a list. -/
def listMin : List ℚ → ℚ
  | [] => 0
  | x :: xs => xs.foldl min x

/-- Decides `price < middle - 2*sqrt(var)` (current price below the lower
Bollinger band); the arguments may be NaN.  See below_lower_band_iff. -/
def below_lower_band (price : ℚ) : Option ℚ → Option ℚ → Bool
  | some m, some v => decide (price < m) && decide (4 * v < (m - price) ^ 2)
  | _, _ => false

/-- Decides `price > middle + 2*sqrt(var)` (current price above the upper
Bollinger band); the arguments may be NaN.  See above_upper_band_iff. -/
def above_upper_band (price : ℚ) : Option ℚ → Option ℚ → Bool
  | some m, some v => decide (m < price) && decide (4 * v < (price - m) ^ 2)
  | _, _ => false

namespace SimpleTechnicalIndicators

/-- SimpleTechnicalIndicators.rsi from src/trading_engine_simple.py. -/
def rsi (prices : List ℚ) (period : Nat) : ℚ :=
  if prices.length < period + 1 then 50
  else
    let gains := gainsOf prices
    let losses := lossesOf prices
    if gains.length < period then 50
    else
      let avg_gain := (gains.drop (gains.length - period)).sum / (period : ℚ)
      let avg_loss := (losses.drop (losses.length - period)).sum / (period : ℚ)
      if avg_loss = 0 then 100
      else 100 - 100 / (1 + avg_gain / avg_loss)

end SimpleTechnicalIndicators

namespace TechnicalIndicators

/-- TechnicalIndicators.rsi(data, period).iloc[-1] from src/trading_engine.py
under pandas semantics: data.diff() has NaN at position 0, which
`.where(delta > 0, 0)` turns into 0, so the gain/loss series are the loop
series prefixed with 0; a division avg_gain/0 is +inf (mapped by
100 - 100/(1+rs) to exactly 100) and 0/0 is NaN (`none`). -/
def rsi_last (closes : List ℚ) (period : Nat) : Option ℚ :=
  let gains := 0 :: gainsOf closes
  let losses := 0 :: lossesOf closes
  match rolling_mean_at gains period (closes.length - 1),
        rolling_mean_at losses period (closes.length - 1) with
  | some g, some l =>
      if l = 0 then (if g = 0 then none else some 100)
      else some (100 - 100 / (1 + g / l))
  | _, _ => none

end TechnicalIndicators

namespace TrendFollowingStrategy

/-- TrendFollowingStrategy.generate_signal from src/trading_engine.py
(short_ma_period=10, long_ma_period=30). -/
def generate_signal (data : List Bar) : Signal :=
  if data.length < 30 then holdSignal "Insufficient data"
  else
    let close_prices := data.map Bar.close
    let n := close_prices.length
    let current_short := rolling_mean_at close_prices 10 (n - 1)
    let current_long := rolling_mean_at close_prices 30 (n - 1)
    let prev_short := rolling_mean_at close_prices 10 (n - 2)
    let prev_long := rolling_mean_at close_prices 30 (n - 2)
    let last_close := close_prices.getLast?.getD 0
    if optLe prev_short prev_long && optLt current_long current_short then
      { signal := some "BUY", confidence := some (7/10),
        reason := some "Golden cross detected",
        entry_price := some last_close,
        stop_loss := some (last_close * (98/100)),
        take_profit := some (last_close * (104/100)) }
    else if optLe prev_long prev_short && optLt current_short current_long then
      { signal := some "SELL", confidence := some (7/10),
        reason := some "Death cross detected",
        entry_price := some last_close,
        stop_loss := some (last_close * (102/100)),
        take_profit := some (last_close * (96/100)) }
    else holdSignal "No clear trend signal"

end TrendFollowingStrategy

namespace MeanReversionStrategy

/-- MeanReversionStrategy.generate_signal from src/trading_engine.py
(rsi_period=14, bb_period=20, rsi_oversold=30, rsi_overbought=70).  The
formatted rationale strings of the source are abstracted to fixed words. -/
def generate_signal (data : List Bar) : Signal :=
  if data.length < max 14 20 then holdSignal "Insufficient data"
  else
    let close_prices := data.map Bar.close
    let n := close_prices.length
    let current_rsi := TechnicalIndicators.rsi_last close_prices 14
    let middle_bb := rolling_mean_at close_prices 20 (n - 1)
    let bb_var := rolling_var_at close_prices 20 (n - 1)
    let current_price := close_prices.getLast?.getD 0
    if optLtQ current_rsi 30 && below_lower_band current_price middle_bb bb_var then
      { signal := some "BUY", confidence := some (8/10),
        reason := some "Oversold",
        entry_price := some current_price,
        stop_loss := some (current_price * (97/100)),
        take_profit := some (middle_bb.getD 0) }
    else if optGtQ current_rsi 70 && above_upper_band current_price middle_bb bb_var then
      { signal := some "SELL", confidence := some (8/10),
        reason := some "Overbought",
        entry_price := some current_price,
        stop_loss := some (current_price * (103/100)),
        take_profit := some (middle_bb.getD 0) }
    else holdSignal "No mean reversion signal"

end MeanReversionStrategy

namespace BreakoutStrategy

/-- BreakoutStrategy.generate_signal from src/trading_engine.py
(lookback_period=20); data.tail(20) is the last 20 bars.  The formatted
rationale strings of the source are abstracted to fixed words. -/
def generate_signal (data : List Bar) : Signal :=
  if data.length < 20 then holdSignal "Insufficient data"
  else
    let recent_data := data.drop (data.length - 20)
    let resistance := listMax (recent_data.map Bar.high)
    let support := listMin (recent_data.map Bar.low)
    let current_price := (data.map Bar.close).getLast?.getD 0
    if resistance * (1001/1000) < current_price then
      { signal := some "BUY", confidence := some (3/4),
        reason := some "Breakout above resistance",
        entry_price := some current_price,
        stop_loss := some (resistance * (999/1000)),
        take_profit := some (current_price + (current_price - resistance) * 2) }
    else if current_price < support * (999/1000) then
      { signal := some "SELL", confidence := some (3/4),
        reason := some "Breakdown below support",
        entry_price := some current_price,
        stop_loss := some (support * (1001/1000)),
        take_profit := some (current_price - (support - current_price) * 2) }
    else holdSignal "No breakout signal"

end BreakoutStrategy

namespace RiskManager

/-- RiskManager.calculate_position_size (identical in src/trading_engine.py
lines 207-216 and src/trading_engine_simple.py lines 150-159). -/
def calculate_position_size (rm : RiskManager) (entry_price stop_loss : ℚ) : ℚ :=
  let risk_amount := rm.account_balance * rm.max_risk_per_trade
  let price_diff := |entry_price - stop_loss|
  if price_diff = 0 then 0
  else min (risk_amount / price_diff) (rm.account_balance * (1/10))

/-- RiskManager.validate_trade (identical in src/trading_engine.py lines
218-236 and src/trading_engine_simple.py lines 161-176).  Key presence of
'signal' / 'entry_price' / 'stop_loss' is isSome; signal.get('confidence', 0)
is confidence.getD 0. -/
def validate_trade (rm : RiskManager) (s : Signal) : Bool :=
  if rm.daily_pnl ≤ -rm.account_balance * rm.max_daily_loss then false
  else if ¬ (s.signal.isSome ∧ s.entry_price.isSome ∧ s.stop_loss.isSome) then false
  else if s.confidence.getD 0 < 3/5 then false
  else true

end RiskManager

/-- Python `list.remove(x)`: remove the first element equal to x (the source
always calls it on the element object itself after an in-place mutation; on
states where the trade occurs at most once in the list this is exactly
removing its single occurrence). -/
def pyRemove {α : Type} [DecidableEq α] (x : α) : List α → List α
  | [] => []
  | y :: ys => if y = x then ys else y :: pyRemove x ys

namespace ForexTradingRobot

/-- The P/L computed by close_trade:
(exit - entry) * size for BUY, (entry - exit) * size otherwise. -/
def tradePnl (trade : Trade) (exit_price : ℚ) : ℚ :=
  if trade.signal_type = "BUY" then (exit_price - trade.entry_price) * trade.position_size
  else (trade.entry_price - exit_price) * trade.position_size

/-- The closed version of a trade: close_trade's five in-place field updates. -/
def closedWith (trade : Trade) (exit_price : ℚ) (reason : String) (now : Nat) : Trade :=
  { trade with
    exit_price := some exit_price
    exit_time := some now
    pnl := some (tradePnl trade exit_price)
    status := "CLOSED"
    close_reason := some reason }

/-- ForexTradingRobot.close_trade (src/trading_engine.py lines 349-368);
SimpleForexTradingRobot.close_trade (src/trading_engine_simple.py lines
296-315) is verbatim identical. -/
def close_trade (r : Robot) (trade : Trade) (exit_price : ℚ) (reason : String)
    (now : Nat) : Robot :=
  let pnl := tradePnl trade exit_price
  { risk_manager :=
      { r.risk_manager with
        daily_pnl := r.risk_manager.daily_pnl + pnl
        account_balance := r.risk_manager.account_balance + pnl }
    active_trades := pyRemove trade r.active_trades
    trade_history := r.trade_history ++ [closedWith trade exit_price reason now] }

/-- The stop-loss trigger of monitor_trades:
(BUY and price <= stop_loss) or (SELL and price >= stop_loss). -/
def stop_triggered (trade : Trade) (current_price : ℚ) : Bool :=
  (trade.signal_type = "BUY" && current_price ≤ trade.stop_loss) ||
  (trade.signal_type = "SELL" && trade.stop_loss ≤ current_price)

/-- The take-profit trigger of monitor_trades, including the Python truthiness
test `trade['take_profit'] and (...)`: a take_profit of None or 0 never
triggers. -/
def tp_triggered (trade : Trade) (current_price : ℚ) : Bool :=
  match trade.take_profit with
  | none => false
  | some tp =>
      tp ≠ 0 &&
      ((trade.signal_type = "BUY" && tp ≤ current_price) ||
       (trade.signal_type = "SELL" && current_price ≤ tp))

/-- The loop body of monitor_trades: iterate over a copy of active_trades
(`self.active_trades[:]`), closing against the accumulated robot state. -/
def monitor_go (price : String → ℚ) (now : Nat) : List Trade → Robot → Robot
  | [], r => r
  | trade :: rest, r =>
      let current_price := price trade.symbol
      if current_price = 0 then monitor_go price now rest r
      else if stop_triggered trade current_price then
        monitor_go price now rest (close_trade r trade current_price "STOP_LOSS" now)
      else if tp_triggered trade current_price then
        monitor_go price now rest (close_trade r trade current_price "TAKE_PROFIT" now)
      else monitor_go price now rest r

/-- ForexTradingRobot.monitor_trades (src/trading_engine.py lines 330-347);
SimpleForexTradingRobot.monitor_trades (src/trading_engine_simple.py lines
277-294) is verbatim identical.  `price` is the data provider's
get_real_time_price, with 0 as the unavailable sentinel. -/
def monitor_trades (r : Robot) (price : String → ℚ) (now : Nat) : Robot :=
  monitor_go price now r.active_trades r

/-- ForexTradingRobot.execute_trade (src/trading_engine.py lines 300-328):
note the new trade's id is len(self.trade_history) + 1. -/
def execute_trade (r : Robot) (s : Signal) (now : Nat) : Bool × Robot :=
  if ¬ (RiskManager.validate_trade r.risk_manager s = true) then (false, r)
  else
    let position_size := RiskManager.calculate_position_size r.risk_manager
      (s.entry_price.getD 0) (s.stop_loss.getD 0)
    if position_size ≤ 0 then (false, r)
    else
      let trade : Trade :=
        { id := r.trade_history.length + 1
          symbol := s.symbol
          strategy := s.strategy
          signal_type := s.signal.getD ""
          entry_price := s.entry_price.getD 0
          stop_loss := s.stop_loss.getD 0
          take_profit := s.take_profit
          position_size := position_size
          entry_time := now
          status := "OPEN" }
      (true, { r with active_trades := r.active_trades ++ [trade] })

end ForexTradingRobot

namespace SimpleForexTradingRobot

/-- SimpleForexTradingRobot.execute_trade (src/trading_engine_simple.py lines
247-275): identical to the full engine except that the new trade's id is
len(self.trade_history) + len(self.active_trades) + 1. -/
def execute_trade (r : Robot) (s : Signal) (now : Nat) : Bool × Robot :=
  if ¬ (RiskManager.validate_trade r.risk_manager s = true) then (false, r)
  else
    let position_size := RiskManager.calculate_position_size r.risk_manager
      (s.entry_price.getD 0) (s.stop_loss.getD 0)
    if position_size ≤ 0 then (false, r)
    else
      let trade : Trade :=
        { id := r.trade_history.length + r.active_trades.length + 1
          symbol := s.symbol
          strategy := s.strategy
          signal_type := s.signal.getD ""
          entry_price := s.entry_price.getD 0
          stop_loss := s.stop_loss.getD 0
          take_profit := s.take_profit
          position_size := position_size
          entry_time := now
          status := "OPEN" }
      (true, { r with active_trades := r.active_trades ++ [trade] })

end SimpleForexTradingRobot

/-- The signal dict built by the manual_trade route (src/trading_simple.py
lines 172-182): take_profit is float(data.get('take_profit', 0)) when
data.get('take_profit') is truthy and None otherwise, so a missing or zero
take_profit input yields None; confidence defaults to 1.0. -/
def manual_trade_signal (symbol sig : String) (entry stop : ℚ)
    (tp : Option ℚ) (conf : Option ℚ) : Signal :=
  { symbol := symbol
    signal := some sig
    entry_price := some entry
    stop_loss := some stop
    take_profit := match tp with
      | some v => if v = 0 then none else some v
      | none => none
    confidence := some (conf.getD 1)
    strategy := "Manual"
    reason := some "Manual trade execution" }

/-- A strictly (adjacent-wise) increasing price series, the shape of series the
spec uses as an example of zero average loss. -/
def chainLt : List ℚ → Bool
  | a :: b :: rest => decide (a < b) && chainLt (b :: rest)
  | _ => true

/-- A price oracle that returns the same price for every symbol. -/
def constPrice (q : ℚ) : String → ℚ := fun _ => q

/-- A well-formed BUY signal (entry 1.2000, stop 1.1900, confidence 0.7) used
as a concrete input. -/
def sigBuy : Signal :=
  { signal := some "BUY", confidence := some (7/10),
    reason := some "Golden cross detected",
    entry_price := some (6/5), stop_loss := some (119/100),
    take_profit := some (5/4), symbol := "EURUSD",
    strategy := "Trend Following" }

/-- A signal whose confidence 0.3 is below the 0.6 threshold. -/
def sigLowConf : Signal :=
  { signal := some "BUY", confidence := some (3/10),
    entry_price := some (6/5), stop_loss := some (119/100),
    symbol := "EURUSD", strategy := "Manual" }

/-- A concrete open BUY trade: entry 1.1000, stop 1.0950, size 100
(the spec's end-to-end scenario B). -/
def tradeB : Trade :=
  { id := 1, symbol := "EURUSD", strategy := "Manual", signal_type := "BUY",
    entry_price := 11/10, stop_loss := 1095/1000, take_profit := some (12/10),
    position_size := 100, entry_time := 0, status := "OPEN" }

/-- A robot holding exactly the scenario-B trade. -/
def robotB : Robot := { active_trades := [tradeB] }

/-- A 20-bar series whose last close 2.1 breaks out above the 20-bar
resistance 2 (buffer 2*1.001), with all prices strictly positive. -/
def dataBO : List Bar :=
  List.replicate 19 ({ high := 2, low := 1, close := 3/2 } : Bar) ++
    [{ high := 2, low := 1, close := 21/10 }]

/-! Helper lemmas about the list functions of the embedding. -/

theorem gainsOf_length : ∀ l : List ℚ, (gainsOf l).length = l.length - 1
  | [] => rfl
  | [_] => rfl
  | a :: b :: rest => by
      have ih := gainsOf_length (b :: rest)
      simp only [gainsOf, List.length_cons] at ih ⊢
      omega

theorem lossesOf_length : ∀ l : List ℚ, (lossesOf l).length = l.length - 1
  | [] => rfl
  | [_] => rfl
  | a :: b :: rest => by
      have ih := lossesOf_length (b :: rest)
      simp only [lossesOf, List.length_cons] at ih ⊢
      omega

theorem lossesOf_zero_of_chainLt :
    ∀ l : List ℚ, chainLt l = true → ∀ x ∈ lossesOf l, x = 0
  | [], _, x, hx => by simp [lossesOf] at hx
  | [_], _, x, hx => by simp [lossesOf] at hx
  | a :: b :: rest, h, x, hx => by
      rw [chainLt, Bool.and_eq_true, decide_eq_true_eq] at h
      rw [lossesOf, if_pos (by linarith [h.1] : 0 < b - a)] at hx
      rcases List.mem_cons.mp hx with h0 | h0
      · exact h0
      · exact lossesOf_zero_of_chainLt (b :: rest) h.2 x h0

theorem getLastD_mem {α : Type} (d : α) :
    ∀ l : List α, l ≠ [] → l.getLast?.getD d ∈ l
  | [], h => absurd rfl h
  | [a], _ => by simp
  | a :: b :: rest, _ => by
      rw [List.getLast?_cons_cons]
      exact List.mem_cons_of_mem a (getLastD_mem d (b :: rest) (by simp))

theorem foldl_max_pos :
    ∀ (xs : List ℚ) (x : ℚ), 0 < x → (∀ y ∈ xs, 0 < y) → 0 < xs.foldl max x
  | [], x, hx, _ => hx
  | y :: ys, x, hx, h => by
      rw [List.foldl_cons]
      exact foldl_max_pos ys (max x y) (lt_max_of_lt_left hx)
        (fun z hz => h z (List.mem_cons_of_mem y hz))

theorem listMax_pos (l : List ℚ) (hne : l ≠ []) (h : ∀ y ∈ l, 0 < y) :
    0 < listMax l := by
  match l with
  | [] => exact absurd rfl hne
  | x :: xs =>
      rw [listMax]
      exact foldl_max_pos xs x (h x (List.mem_cons_self x xs))
        (fun z hz => h z (List.mem_cons_of_mem x hz))

theorem foldl_min_pos :
    ∀ (xs : List ℚ) (x : ℚ), 0 < x → (∀ y ∈ xs, 0 < y) → 0 < xs.foldl min x
  | [], x, hx, _ => hx
  | y :: ys, x, hx, h => by
      rw [List.foldl_cons]
      exact foldl_min_pos ys (min x y)
        (lt_min hx (h y (List.mem_cons_self y ys)))
        (fun z hz => h z (List.mem_cons_of_mem y hz))

theorem listMin_pos (l : List ℚ) (hne : l ≠ []) (h : ∀ y ∈ l, 0 < y) :
    0 < listMin l := by
  match l with
  | [] => exact absurd rfl hne
  | x :: xs =>
      rw [listMin]
      exact foldl_min_pos xs x (h x (List.mem_cons_self x xs))
        (fun z hz => h z (List.mem_cons_of_mem x hz))

theorem pyRemove_count_self {α : Type} [DecidableEq α] (x : α) :
    ∀ l : List α, (pyRemove x l).count x = l.count x - 1
  | [] => rfl
  | y :: ys => by
      by_cases hyx : y = x
      · subst hyx
        simp [pyRemove, List.count_cons_self]
      · rw [pyRemove, if_neg hyx, List.count_cons_of_ne (Ne.symm hyx),
          List.count_cons_of_ne (Ne.symm hyx), pyRemove_count_self x ys]

theorem pyRemove_count_ne {α : Type} [DecidableEq α] (x y : α) (h : y ≠ x) :
    ∀ l : List α, (pyRemove x l).count y = l.count y
  | [] => rfl
  | z :: zs => by
      by_cases hzx : z = x
      · subst hzx
        rw [pyRemove, if_pos rfl, List.count_cons_of_ne h]
      · by_cases hzy : y = z
        · subst hzy
          rw [pyRemove, if_neg hzx, List.count_cons_self,
            List.count_cons_self, pyRemove_count_ne x y h zs]
        · rw [pyRemove, if_neg hzx, List.count_cons_of_ne hzy,
            List.count_cons_of_ne hzy, pyRemove_count_ne x y h zs]

theorem pyRemove_length_of_mem {α : Type} [DecidableEq α] (x : α) :
    ∀ l : List α, x ∈ l → (pyRemove x l).length + 1 = l.length
  | [], h => absurd h (List.not_mem_nil x)
  | y :: ys, h => by
      by_cases hyx : y = x
      · rw [pyRemove, if_pos hyx, List.length_cons]
      · rw [pyRemove, if_neg hyx, List.length_cons, List.length_cons,
          pyRemove_length_of_mem x ys (by
            rcases List.mem_cons.mp h with h0 | h0
            · exact absurd h0.symm hyx
            · exact h0)]

theorem mem_split_first {α : Type} [DecidableEq α] (a : α) :
    ∀ l : List α, a ∈ l → ∃ l1 l2, l = l1 ++ a :: l2 ∧ a ∉ l1
  | [], h => absurd h (List.not_mem_nil a)
  | y :: ys, h => by
      by_cases hya : y = a
      · exact ⟨[], ys, by rw [hya]; rfl, List.not_mem_nil a⟩
      · rcases List.mem_cons.mp h with h0 | h0
        · exact absurd h0.symm hya
        · rcases mem_split_first a ys h0 with ⟨l1, l2, heq, hnot⟩
          exact ⟨y :: l1, l2, by rw [heq]; rfl, by
            simp only [List.mem_cons, not_or]
            exact ⟨fun hc => hya hc.symm, hnot⟩⟩

open ForexTradingRobot

theorem close_trade_active (r : Robot) (t : Trade) (p : ℚ) (reason : String)
    (now : Nat) :
    (close_trade r t p reason now).active_trades = pyRemove t r.active_trades := rfl

theorem close_trade_history (r : Robot) (t : Trade) (p : ℚ) (reason : String)
    (now : Nat) :
    (close_trade r t p reason now).trade_history =
      r.trade_history ++ [closedWith t p reason now] := rfl

theorem monitor_go_append (price : String → ℚ) (now : Nat) :
    ∀ (l1 l2 : List Trade) (racc : Robot),
      monitor_go price now (l1 ++ l2) racc =
        monitor_go price now l2 (monitor_go price now l1 racc)
  | [], l2, racc => rfl
  | t :: l1, l2, racc => by
      simp only [List.cons_append, monitor_go]
      by_cases h0 : price t.symbol = 0
      · rw [if_pos h0, if_pos h0]
        exact monitor_go_append price now l1 l2 racc
      · rw [if_neg h0, if_neg h0]
        by_cases hs : stop_triggered t (price t.symbol) = true
        · rw [if_pos hs, if_pos hs]
          exact monitor_go_append price now l1 l2 _
        · rw [if_neg hs, if_neg hs]
          by_cases ht : tp_triggered t (price t.symbol) = true
          · rw [if_pos ht, if_pos ht]
            exact monitor_go_append price now l1 l2 _
          · rw [if_neg ht, if_neg ht]
            exact monitor_go_append price now l1 l2 racc

theorem monitor_go_untouched (price : String → ℚ) (now : Nat) (t : Trade) :
    ∀ (rest : List Trade) (racc : Robot), (∀ u ∈ rest, u.id ≠ t.id) →
      (monitor_go price now rest racc).active_trades.count t =
          racc.active_trades.count t ∧
        (monitor_go price now rest racc).trade_history.filter
            (fun u => u.id == t.id) =
          racc.trade_history.filter (fun u => u.id == t.id)
  | [], racc, _ => ⟨rfl, rfl⟩
  | trade :: rest, racc, h => by
      have hid : trade.id ≠ t.id := h trade (List.mem_cons_self _ _)
      have hne : t ≠ trade := fun hc => hid (by rw [hc])
      have hrest : ∀ u ∈ rest, u.id ≠ t.id :=
        fun u hu => h u (List.mem_cons_of_mem _ hu)
      have hclose : ∀ (p : ℚ) (reason : String),
          (close_trade racc trade p reason now).active_trades.count t =
              racc.active_trades.count t ∧
            (close_trade racc trade p reason now).trade_history.filter
                (fun u => u.id == t.id) =
              racc.trade_history.filter (fun u => u.id == t.id) := by
        intro p reason
        constructor
        · rw [close_trade_active]
          exact pyRemove_count_ne trade t hne racc.active_trades
        · rw [close_trade_history, List.filter_append]
          have : (closedWith trade p reason now).id = trade.id := rfl
          simp [this, hid]
      simp only [monitor_go]
      by_cases h0 : price trade.symbol = 0
      · rw [if_pos h0]
        exact monitor_go_untouched price now t rest racc hrest
      · rw [if_neg h0]
        by_cases hs : stop_triggered trade (price trade.symbol) = true
        · rw [if_pos hs]
          have ih := monitor_go_untouched price now t rest
            (close_trade racc trade (price trade.symbol) "STOP_LOSS" now) hrest
          rw [ih.1, ih.2, (hclose _ _).1, (hclose _ _).2]
          exact ⟨rfl, rfl⟩
        · rw [if_neg hs]
          by_cases htp : tp_triggered trade (price trade.symbol) = true
          · rw [if_pos htp]
            have ih := monitor_go_untouched price now t rest
              (close_trade racc trade (price trade.symbol) "TAKE_PROFIT" now) hrest
            rw [ih.1, ih.2, (hclose _ _).1, (hclose _ _).2]
            exact ⟨rfl, rfl⟩
          · rw [if_neg htp]
            exact monitor_go_untouched price now t rest racc hrest

theorem monitor_go_length (price : String → ℚ) (now : Nat) :
    ∀ (rest : List Trade) (racc : Robot),
      (∀ x : Trade, rest.count x ≤ racc.active_trades.count x) →
      (monitor_go price now rest racc).active_trades.length +
          (monitor_go price now rest racc).trade_history.length =
        racc.active_trades.length + racc.trade_history.length
  | [], racc, _ => rfl
  | trade :: rest, racc, h => by
      have hmem : trade ∈ racc.active_trades := by
        have := h trade
        rw [List.count_cons_self] at this
        exact List.count_pos_iff.mp (by omega)
      have hrest_skip : ∀ x : Trade, rest.count x ≤ racc.active_trades.count x := by
        intro x
        have hx0 := h x
        by_cases hx : x = trade
        · subst hx; rw [List.count_cons_self] at hx0; omega
        · rw [List.count_cons_of_ne hx] at hx0; exact hx0
      have hrest_close : ∀ (p : ℚ) (reason : String) (x : Trade),
          rest.count x ≤ (close_trade racc trade p reason now).active_trades.count x := by
        intro p reason x
        rw [close_trade_active]
        by_cases hx : x = trade
        · subst hx
          rw [pyRemove_count_self]
          have hx0 := h x
          rw [List.count_cons_self] at hx0
          omega
        · rw [pyRemove_count_ne trade x hx]
          exact hrest_skip x
      have hlen_close : ∀ (p : ℚ) (reason : String),
          (close_trade racc trade p reason now).active_trades.length +
              (close_trade racc trade p reason now).trade_history.length =
            racc.active_trades.length + racc.trade_history.length := by
        intro p reason
        rw [close_trade_active, close_trade_history, List.length_append]
        have := pyRemove_length_of_mem trade racc.active_trades hmem
        simp only [List.length_cons, List.length_nil]
        omega
      simp only [monitor_go]
      by_cases h0 : price trade.symbol = 0
      · rw [if_pos h0]
        exact monitor_go_length price now rest racc hrest_skip
      · rw [if_neg h0]
        by_cases hs : stop_triggered trade (price trade.symbol) = true
        · rw [if_pos hs]
          rw [monitor_go_length price now rest _ (hrest_close _ _)]
          exact hlen_close _ _
        · rw [if_neg hs]
          by_cases htp : tp_triggered trade (price trade.symbol) = true
          · rw [if_pos htp]
            rw [monitor_go_length price now rest _ (hrest_close _ _)]
            exact hlen_close _ _
          · rw [if_neg htp]
            exact monitor_go_length price now rest racc hrest_skip

theorem monitor_go_tp_closed (price : String → ℚ) (now : Nat) :
    ∀ (rest : List Trade) (racc : Robot),
      (∀ u ∈ racc.trade_history,
        u.take_profit = none ∨ u.take_profit = some 0 →
          u.close_reason ≠ some "TAKE_PROFIT") →
      ∀ u ∈ (monitor_go price now rest racc).trade_history,
        u.take_profit = none ∨ u.take_profit = some 0 →
          u.close_reason ≠ some "TAKE_PROFIT"
  | [], racc, h => h
  | trade :: rest, racc, h => by
      have hSL : ∀ u ∈ (close_trade racc trade (price trade.symbol) "STOP_LOSS"
          now).trade_history,
          u.take_profit = none ∨ u.take_profit = some 0 →
            u.close_reason ≠ some "TAKE_PROFIT" := by
        intro u hu
        rw [close_trade_history] at hu
        rcases List.mem_append.mp hu with h0 | h0
        · exact h u h0
        · intro _ hc
          rw [List.mem_singleton] at h0
          subst h0
          have : (closedWith trade (price trade.symbol) "STOP_LOSS" now).close_reason =
              some "STOP_LOSS" := rfl
          rw [this] at hc
          simp at hc
      simp only [monitor_go]
      by_cases h0 : price trade.symbol = 0
      · rw [if_pos h0]
        exact monitor_go_tp_closed price now rest racc h
      · rw [if_neg h0]
        by_cases hs : stop_triggered trade (price trade.symbol) = true
        · rw [if_pos hs]
          exact monitor_go_tp_closed price now rest _ hSL
        · rw [if_neg hs]
          by_cases htp : tp_triggered trade (price trade.symbol) = true
          · rw [if_pos htp]
            have hTP : ∀ u ∈ (close_trade racc trade (price trade.symbol)
                "TAKE_PROFIT" now).trade_history,
                u.take_profit = none ∨ u.take_profit = some 0 →
                  u.close_reason ≠ some "TAKE_PROFIT" := by
              intro u hu
              rw [close_trade_history] at hu
              rcases List.mem_append.mp hu with h1 | h1
              · exact h u h1
              · intro hnone _
                rw [List.mem_singleton] at h1
                subst h1
                rw [tp_triggered] at htp
                rcases htmp : trade.take_profit with _ | tp
                · rw [htmp] at htp; simp at htp
                · rw [htmp] at htp
                  rw [Bool.and_eq_true, decide_eq_true_eq] at htp
                  have hu_tp : (closedWith trade (price trade.symbol)
                      "TAKE_PROFIT" now).take_profit = some tp := by
                    rw [show (closedWith trade (price trade.symbol)
                      "TAKE_PROFIT" now).take_profit = trade.take_profit from rfl, htmp]
                  rcases hnone with h2 | h2
                  · rw [hu_tp] at h2; simp at h2
                  · rw [hu_tp] at h2
                    rw [Option.some_inj] at h2
                    exact htp.1 h2
            exact monitor_go_tp_closed price now rest _ hTP
          · rw [if_neg htp]
            exact monitor_go_tp_closed price now rest racc h

theorem sqrt_four_mul (v : ℝ) : Real.sqrt (4 * v) = 2 * Real.sqrt v := by
  rw [Real.sqrt_mul (by norm_num : (0:ℝ) ≤ 4) v,
    show (4:ℝ) = 2 ^ 2 by norm_num, Real.sqrt_sq (by norm_num : (0:ℝ) ≤ 2)]

theorem below_lower_band_iff (price m v : ℚ) :
    below_lower_band price (some m) (some v) = true ↔
      (price : ℝ) < (m : ℝ) - 2 * Real.sqrt (v : ℝ) := by
  rw [below_lower_band, Bool.and_eq_true, decide_eq_true_eq, decide_eq_true_eq]
  constructor
  · rintro ⟨h1, h2⟩
    have hc : (0:ℝ) < (m : ℝ) - (price : ℝ) := by
      have h1r : (price : ℝ) < (m : ℝ) := by exact_mod_cast h1
      linarith
    have h2r : 4 * (v : ℝ) < ((m : ℝ) - (price : ℝ)) ^ 2 := by
      have := h2
      push_cast at this ⊢
      exact_mod_cast this
    have hs : Real.sqrt (4 * (v : ℝ)) < (m : ℝ) - (price : ℝ) :=
      (Real.sqrt_lt' hc).mpr h2r
    rw [sqrt_four_mul] at hs
    linarith
  · intro h
    have hsq : (0:ℝ) ≤ Real.sqrt (v : ℝ) := Real.sqrt_nonneg _
    have hc : (0:ℝ) < (m : ℝ) - (price : ℝ) := by linarith
    have h1 : price < m := by exact_mod_cast (show (price:ℝ) < (m:ℝ) by linarith)
    have hs : Real.sqrt (4 * (v : ℝ)) < (m : ℝ) - (price : ℝ) := by
      rw [sqrt_four_mul]; linarith
    have h2r : 4 * (v : ℝ) < ((m : ℝ) - (price : ℝ)) ^ 2 :=
      (Real.sqrt_lt' hc).mp hs
    refine ⟨h1, ?_⟩
    have : ((4 * v : ℚ) : ℝ) < (((m - price) ^ 2 : ℚ) : ℝ) := by
      push_cast
      exact_mod_cast h2r
    exact_mod_cast this

theorem above_upper_band_iff (price m v : ℚ) :
    above_upper_band price (some m) (some v) = true ↔
      (m : ℝ) + 2 * Real.sqrt (v : ℝ) < (price : ℝ) := by
  rw [above_upper_band, Bool.and_eq_true, decide_eq_true_eq, decide_eq_true_eq]
  constructor
  · rintro ⟨h1, h2⟩
    have hc : (0:ℝ) < (price : ℝ) - (m : ℝ) := by
      have h1r : (m : ℝ) < (price : ℝ) := by exact_mod_cast h1
      linarith
    have h2r : 4 * (v : ℝ) < ((price : ℝ) - (m : ℝ)) ^ 2 := by
      have := h2
      push_cast at this ⊢
      exact_mod_cast this
    have hs : Real.sqrt (4 * (v : ℝ)) < (price : ℝ) - (m : ℝ) :=
      (Real.sqrt_lt' hc).mpr h2r
    rw [sqrt_four_mul] at hs
    linarith
  · intro h
    have hsq : (0:ℝ) ≤ Real.sqrt (v : ℝ) := Real.sqrt_nonneg _
    have hc : (0:ℝ) < (price : ℝ) - (m : ℝ) := by linarith
    have h1 : m < price := by exact_mod_cast (show (m:ℝ) < (price:ℝ) by linarith)
    have hs : Real.sqrt (4 * (v : ℝ)) < (price : ℝ) - (m : ℝ) := by
      rw [sqrt_four_mul]; linarith
    have h2r : 4 * (v : ℝ) < ((price : ℝ) - (m : ℝ)) ^ 2 :=
      (Real.sqrt_lt' hc).mp hs
    refine ⟨h1, ?_⟩
    have : ((4 * v : ℚ) : ℝ) < (((price - m) ^ 2 : ℚ) : ℝ) := by
      push_cast
      exact_mod_cast h2r
    exact_mod_cast this

/-- Claim C1 (refuted by the code of src/trading_engine.py): from a fresh
ForexTradingRobot, executing the same valid BUY signal twice with no close in
between succeeds twice but assigns BOTH open trades the id 1 (the id is
len(trade_history) + 1 and the history is still empty), while the claim
requires all ids to be distinct and strictly increasing.  The two trades are
genuinely distinct records (Nodup).  The SimpleForexTradingRobot variant,
whose id is len(trade_history) + len(active_trades) + 1, assigns [1, 2] as the
claim demands. -/
theorem trade_id_reused_in_full_engine :
    (ForexTradingRobot.execute_trade {} sigBuy 0).1 = true ∧
    (ForexTradingRobot.execute_trade
      (ForexTradingRobot.execute_trade {} sigBuy 0).2 sigBuy 1).1 = true ∧
    ((ForexTradingRobot.execute_trade
      (ForexTradingRobot.execute_trade {} sigBuy 0).2 sigBuy 1).2.active_trades.map
        (fun t => t.id)) = [1, 1] ∧
    ((ForexTradingRobot.execute_trade
      (ForexTradingRobot.execute_trade {} sigBuy 0).2 sigBuy 1).2.active_trades).Nodup ∧
    ((SimpleForexTradingRobot.execute_trade
      (SimpleForexTradingRobot.execute_trade {} sigBuy 0).2 sigBuy 1).2.active_trades.map
        (fun t => t.id)) = [1, 2] := by
  decide

/-- Claim C3: calculate_position_size returns 0 when entry = stop (no
division-by-zero error), otherwise min(balance*max_risk_per_trade/|entry-stop|,
balance*0.10); for a nonnegative balance the result never exceeds 10% of the
balance; and with the default balance 10000, entry 1.2000 and stop 1.1900 the
result is exactly 1000. -/
theorem calculate_position_size_spec (rm : RiskManager) (entry stop : ℚ) :
    (entry = stop → RiskManager.calculate_position_size rm entry stop = 0) ∧
    (entry ≠ stop →
      RiskManager.calculate_position_size rm entry stop =
        min (rm.account_balance * rm.max_risk_per_trade / |entry - stop|)
          (rm.account_balance * (1/10))) ∧
    (0 ≤ rm.account_balance →
      RiskManager.calculate_position_size rm entry stop ≤
        rm.account_balance * (1/10)) ∧
    RiskManager.calculate_position_size {} (12/10) (119/100) = 1000 := by
  refine ⟨fun h => ?_, fun h => ?_, fun hb => ?_, by decide⟩
  · simp only [RiskManager.calculate_position_size]
    rw [if_pos (by rw [h, sub_self, abs_zero])]
  · simp only [RiskManager.calculate_position_size]
    rw [if_neg (fun hc => h (by
      have := abs_eq_zero.mp hc
      linarith [sub_eq_zero.mp this]))]
  · simp only [RiskManager.calculate_position_size]
    by_cases hd : |entry - stop| = 0
    · rw [if_pos hd]
      linarith
    · rw [if_neg hd]
      exact min_le_right _ _

/-- Claim C4: validate_trade is total and returns True exactly when the daily
loss breaker has not tripped, the signal has the keys signal / entry_price /
stop_loss, and its confidence (defaulting to 0) is not below 0.6; in
particular any signal with confidence < 0.6 is rejected, and with the default
max_daily_loss every signal is rejected once daily_pnl <= -balance*0.05. -/
theorem validate_trade_spec (rm : RiskManager) (s : Signal) :
    (RiskManager.validate_trade rm s = true ↔
      ¬(rm.daily_pnl ≤ -rm.account_balance * rm.max_daily_loss) ∧
      (s.signal.isSome ∧ s.entry_price.isSome ∧ s.stop_loss.isSome) ∧
      ¬(s.confidence.getD 0 < 3/5)) ∧
    (s.confidence.getD 0 < 3/5 → RiskManager.validate_trade rm s = false) ∧
    (rm.max_daily_loss = 5/100 →
      rm.daily_pnl ≤ -rm.account_balance * (5/100) →
      RiskManager.validate_trade rm s = false) := by
  refine ⟨?_, fun hc => ?_, fun hd hpnl => ?_⟩
  · simp only [RiskManager.validate_trade]
    split_ifs with h1 h2 h3 <;> simp_all
  · simp only [RiskManager.validate_trade]
    split_ifs <;> simp_all
  · simp only [RiskManager.validate_trade]
    rw [if_pos (by rw [hd]; exact hpnl)]

/-- Claim C8: each strategy returns the HOLD/confidence-0 "Insufficient data"
signal (with no entry, stop or take-profit fields) on every series shorter
than its minimum lookback: 30 bars for TrendFollowing, max(14,20) for
MeanReversion, 20 for Breakout. -/
theorem generate_signal_insufficient_data_hold (data : List Bar) :
    (data.length < 30 →
      TrendFollowingStrategy.generate_signal data = holdSignal "Insufficient data") ∧
    (data.length < max 14 20 →
      MeanReversionStrategy.generate_signal data = holdSignal "Insufficient data") ∧
    (data.length < 20 →
      BreakoutStrategy.generate_signal data = holdSignal "Insufficient data") ∧
    (holdSignal "Insufficient data").signal = some "HOLD" ∧
    (holdSignal "Insufficient data").confidence = some 0 ∧
    (holdSignal "Insufficient data").reason = some "Insufficient data" ∧
    (holdSignal "Insufficient data").entry_price = none ∧
    (holdSignal "Insufficient data").stop_loss = none ∧
    (holdSignal "Insufficient data").take_profit = none := by
  refine ⟨fun h => ?_, fun h => ?_, fun h => ?_, rfl, rfl, rfl, rfl, rfl, rfl⟩
  · simp only [TrendFollowingStrategy.generate_signal]
    rw [if_pos h]
  · simp only [MeanReversionStrategy.generate_signal]
    rw [if_pos h]
  · simp only [BreakoutStrategy.generate_signal]
    rw [if_pos h]

/-- Witness for C3: position size is 0 at entry = stop = 1, and the scenario-C
size for entry 1.2000 / stop 1.1900 respects the 10%-of-balance cap. -/
theorem calculate_position_size_spec_witness :
    RiskManager.calculate_position_size {} 1 1 = 0 ∧
    RiskManager.calculate_position_size {} (12/10) (119/100) ≤
      ({} : RiskManager).account_balance * (1/10) :=
  ⟨(calculate_position_size_spec {} 1 1).1 rfl,
   (calculate_position_size_spec {} (12/10) (119/100)).2.2.1 (by decide)⟩

/-- Witness for C4: a fresh risk manager rejects a signal of confidence 0.3. -/
theorem validate_trade_spec_witness :
    RiskManager.validate_trade {} sigLowConf = false :=
  (validate_trade_spec {} sigLowConf).2.1 (by decide)

/-- Witness for C8: the empty series yields the insufficient-data HOLD signal
from all three strategies. -/
theorem generate_signal_insufficient_data_hold_witness :
    TrendFollowingStrategy.generate_signal [] = holdSignal "Insufficient data" ∧
    MeanReversionStrategy.generate_signal [] = holdSignal "Insufficient data" ∧
    BreakoutStrategy.generate_signal [] = holdSignal "Insufficient data" :=
  ⟨(generate_signal_insufficient_data_hold []).1 (by decide),
   (generate_signal_insufficient_data_hold []).2.1 (by decide),
   (generate_signal_insufficient_data_hold []).2.2.1 (by decide)⟩

theorem gainsOf_pos_of_chainLt :
    ∀ l : List ℚ, chainLt l = true → ∀ x ∈ gainsOf l, 0 < x
  | [], _, x, hx => by simp [gainsOf] at hx
  | [_], _, x, hx => by simp [gainsOf] at hx
  | a :: b :: rest, h, x, hx => by
      rw [chainLt, Bool.and_eq_true, decide_eq_true_eq] at h
      rw [gainsOf, if_pos (by linarith [h.1] : 0 < b - a)] at hx
      rcases List.mem_cons.mp hx with h0 | h0
      · rw [h0]; linarith [h.1]
      · exact gainsOf_pos_of_chainLt (b :: rest) h.2 x h0

theorem rolling_mean_last (xs : List ℚ) (period : Nat)
    (hp : 0 < period) (hlen : period ≤ xs.length) :
    rolling_mean_at xs period (xs.length - 1) =
      some ((xs.drop (xs.length - period)).sum / (period : ℚ)) := by
  have h2 : xs.length - 1 + 1 = xs.length := by omega
  rw [rolling_mean_at, if_pos ⟨by omega, by omega⟩, h2, List.take_length]

theorem gains_cons_length (prices : List ℚ) (h : 1 ≤ prices.length) :
    (0 :: gainsOf prices).length = prices.length := by
  rw [List.length_cons, gainsOf_length]
  omega

theorem losses_cons_length (prices : List ℚ) (h : 1 ≤ prices.length) :
    (0 :: lossesOf prices).length = prices.length := by
  rw [List.length_cons, lossesOf_length]
  omega

theorem rsi_last_short (prices : List ℚ) (period : Nat) (hp : 0 < period)
    (h : prices.length < period) :
    TechnicalIndicators.rsi_last prices period = none := by
  rcases hn : prices.length with _ | n
  · have hnil : prices = [] := List.length_eq_zero.mp hn
    subst hnil
    by_cases hp1 : period = 1
    · subst hp1; decide
    · have hgm : rolling_mean_at (0 :: gainsOf ([] : List ℚ)) period 0 = none := by
        rw [rolling_mean_at, if_neg (by
          simp only [List.length_cons, gainsOf, List.length_nil]
          omega)]
      simp [TechnicalIndicators.rsi_last, hgm]
  · have hcond : ¬(period ≤ prices.length - 1 + 1 ∧
        prices.length - 1 < (0 :: gainsOf prices).length) := by
      intro hc
      have h1 := hc.1
      omega
    have hgm : rolling_mean_at (0 :: gainsOf prices) period
        (prices.length - 1) = none := by
      rw [rolling_mean_at, if_neg hcond]
    simp [TechnicalIndicators.rsi_last, hgm]

theorem rsi_last_flat (prices : List ℚ) (period : Nat) (hp : 0 < period)
    (hlen : period ≤ prices.length)
    (hg : ∀ x ∈ gainsOf prices, x = 0) (hl : ∀ x ∈ lossesOf prices, x = 0) :
    TechnicalIndicators.rsi_last prices period = none := by
  have h1 : 1 ≤ prices.length := by omega
  have hgl : (0 :: gainsOf prices).length = prices.length :=
    gains_cons_length prices h1
  have hll : (0 :: lossesOf prices).length = prices.length :=
    losses_cons_length prices h1
  have hgm : rolling_mean_at (0 :: gainsOf prices) period
      (prices.length - 1) = some 0 := by
    rw [show prices.length - 1 = (0 :: gainsOf prices).length - 1 by rw [hgl],
      rolling_mean_last _ period hp (by rw [hgl]; exact hlen)]
    have hz : ((0 :: gainsOf prices).drop
        ((0 :: gainsOf prices).length - period)).sum = 0 := by
      refine List.sum_eq_zero ?_
      intro x hx
      rcases List.mem_cons.mp (List.drop_subset _ _ hx) with h0 | h0
      · exact h0
      · exact hg x h0
    rw [hz, zero_div]
  have hlm : rolling_mean_at (0 :: lossesOf prices) period
      (prices.length - 1) = some 0 := by
    rw [show prices.length - 1 = (0 :: lossesOf prices).length - 1 by rw [hll],
      rolling_mean_last _ period hp (by rw [hll]; exact hlen)]
    have hz : ((0 :: lossesOf prices).drop
        ((0 :: lossesOf prices).length - period)).sum = 0 := by
      refine List.sum_eq_zero ?_
      intro x hx
      rcases List.mem_cons.mp (List.drop_subset _ _ hx) with h0 | h0
      · exact h0
      · exact hl x h0
    rw [hz, zero_div]
  simp [TechnicalIndicators.rsi_last, hgm, hlm]

theorem rsi_last_increasing (prices : List ℚ) (period : Nat) (hp : 0 < period)
    (hlen : period + 1 ≤ prices.length) (hchain : chainLt prices = true) :
    TechnicalIndicators.rsi_last prices period = some 100 := by
  have h1 : 1 ≤ prices.length := by omega
  have hgl : (0 :: gainsOf prices).length = prices.length :=
    gains_cons_length prices h1
  have hll : (0 :: lossesOf prices).length = prices.length :=
    losses_cons_length prices h1
  have hlm : rolling_mean_at (0 :: lossesOf prices) period
      (prices.length - 1) = some 0 := by
    rw [show prices.length - 1 = (0 :: lossesOf prices).length - 1 by rw [hll],
      rolling_mean_last _ period hp (by rw [hll]; omega)]
    have hz : ((0 :: lossesOf prices).drop
        ((0 :: lossesOf prices).length - period)).sum = 0 := by
      refine List.sum_eq_zero ?_
      intro x hx
      rcases List.mem_cons.mp (List.drop_subset _ _ hx) with h0 | h0
      · exact h0
      · exact lossesOf_zero_of_chainLt prices hchain x h0
    rw [hz, zero_div]
  have hdrop : (0 :: gainsOf prices).drop ((0 :: gainsOf prices).length - period)
      = (gainsOf prices).drop ((gainsOf prices).length - period) := by
    rw [hgl]
    have hk : prices.length - period = (prices.length - period - 1) + 1 := by
      omega
    rw [hk, List.drop_succ_cons]
    congr 1
    rw [gainsOf_length]
    omega
  have hpos_elts : ∀ x ∈ (gainsOf prices).drop
      ((gainsOf prices).length - period), 0 < x :=
    fun x hx => gainsOf_pos_of_chainLt prices hchain x (List.drop_subset _ _ hx)
  have hne : (gainsOf prices).drop ((gainsOf prices).length - period) ≠ [] := by
    intro hc
    have hlc := congrArg List.length hc
    rw [List.length_drop, gainsOf_length, List.length_nil] at hlc
    omega
  have hsum : 0 < ((gainsOf prices).drop
      ((gainsOf prices).length - period)).sum :=
    List.sum_pos _ hpos_elts hne
  have hgm : rolling_mean_at (0 :: gainsOf prices) period (prices.length - 1)
      = some (((gainsOf prices).drop
          ((gainsOf prices).length - period)).sum / (period : ℚ)) := by
    rw [show prices.length - 1 = (0 :: gainsOf prices).length - 1 by rw [hgl],
      rolling_mean_last _ period hp (by rw [hgl]; omega), hdrop]
  have hgpos : 0 < ((gainsOf prices).drop
      ((gainsOf prices).length - period)).sum / (period : ℚ) :=
    div_pos hsum (by exact_mod_cast hp)
  simp [TechnicalIndicators.rsi_last, hgm, hlm, hgpos.ne']

/-- Claim C7 (amended): the 50/100 guarantees hold for the simple engine's
SimpleTechnicalIndicators.rsi — exactly 50 below period+1 points, exactly 100
whenever the trailing average loss is 0, in particular on strictly increasing
series, with no division-by-zero failure.  The pandas TechnicalIndicators.rsi
of the full engine never raises either, but does not meet the claim as
stated: its last value is NaN (none), not 50, on series shorter than period
points, and NaN (the 0/0 case), not 100, when the trailing gains and losses
are all 0 (e.g. any constant series); on a strictly increasing series of at
least period+1 points it does return exactly 100. -/
theorem rsi_spec (prices : List ℚ) (period : Nat) (hp : 0 < period) :
    (prices.length < period + 1 →
      SimpleTechnicalIndicators.rsi prices period = 50) ∧
    (period + 1 ≤ prices.length →
      ((lossesOf prices).drop ((lossesOf prices).length - period)).sum /
        (period : ℚ) = 0 →
      SimpleTechnicalIndicators.rsi prices period = 100) ∧
    (period + 1 ≤ prices.length → chainLt prices = true →
      SimpleTechnicalIndicators.rsi prices period = 100) ∧
    (prices.length < period →
      TechnicalIndicators.rsi_last prices period = none) ∧
    (period ≤ prices.length → (∀ x ∈ gainsOf prices, x = 0) →
      (∀ x ∈ lossesOf prices, x = 0) →
      TechnicalIndicators.rsi_last prices period = none) ∧
    (period + 1 ≤ prices.length → chainLt prices = true →
      TechnicalIndicators.rsi_last prices period = some 100) := by
  have havg100 : period + 1 ≤ prices.length →
      ((lossesOf prices).drop ((lossesOf prices).length - period)).sum /
        (period : ℚ) = 0 →
      SimpleTechnicalIndicators.rsi prices period = 100 := by
    intro hlen havg
    simp only [SimpleTechnicalIndicators.rsi]
    rw [if_neg (by omega)]
    rw [if_neg (by rw [gainsOf_length]; omega)]
    rw [if_pos havg]
  refine ⟨fun h => ?_, havg100, fun hlen hchain => ?_,
    fun h => rsi_last_short prices period hp h,
    fun hlen hg hl => rsi_last_flat prices period hp hlen hg hl,
    fun hlen hchain => rsi_last_increasing prices period hp hlen hchain⟩
  · simp only [SimpleTechnicalIndicators.rsi]
    rw [if_pos h]
  · refine havg100 hlen ?_
    have hz : ((lossesOf prices).drop
        ((lossesOf prices).length - period)).sum = 0 := by
      refine List.sum_eq_zero ?_
      intro x hx
      exact lossesOf_zero_of_chainLt prices hchain x (List.drop_subset _ _ hx)
    rw [hz, zero_div]

/-- Counterexample for C7 as originally stated, read against its cited
full-engine source TechnicalIndicators.rsi (trading_engine.py lines 28-34):
the 2-point series [1, 2] has fewer than period+1 = 15 points yet the pandas
rsi's last value is NaN (none), not 50; and the constant 15-point series has
trailing average loss exactly 0 (last conjunct) yet the pandas rsi's last
value is NaN (the 0/0 case), not 100. -/
theorem rsi_pandas_counterexample :
    TechnicalIndicators.rsi_last [1, 2] 14 = none ∧
    TechnicalIndicators.rsi_last [1, 2] 14 ≠ some 50 ∧
    TechnicalIndicators.rsi_last (List.replicate 15 (1 : ℚ)) 14 = none ∧
    TechnicalIndicators.rsi_last (List.replicate 15 (1 : ℚ)) 14 ≠ some 100 ∧
    rolling_mean_at (0 :: lossesOf (List.replicate 15 (1 : ℚ))) 14
      ((List.replicate 15 (1 : ℚ)).length - 1) = some 0 := by
  decide

/-- Witness for C7: with period 14, the simple rsi is 50 on the 2-point series
and 100 on the strictly increasing 15-point series; the pandas rsi's last
value is none (NaN) on the 2-point series, exactly 100 on the increasing
15-point series, and none (NaN) on the constant 15-point series. -/
theorem rsi_spec_witness :
    SimpleTechnicalIndicators.rsi [1, 2] 14 = 50 ∧
    SimpleTechnicalIndicators.rsi
      [1, 2, 3, 4, 5, 6, 7, 8, 9, 10, 11, 12, 13, 14, 15] 14 = 100 ∧
    TechnicalIndicators.rsi_last [1, 2] 14 = none ∧
    TechnicalIndicators.rsi_last
      [1, 2, 3, 4, 5, 6, 7, 8, 9, 10, 11, 12, 13, 14, 15] 14 = some 100 ∧
    TechnicalIndicators.rsi_last (List.replicate 15 (1 : ℚ)) 14 = none :=
  ⟨(rsi_spec [1, 2] 14 (by decide)).1 (by decide),
   (rsi_spec [1, 2, 3, 4, 5, 6, 7, 8, 9, 10, 11, 12, 13, 14, 15] 14
     (by decide)).2.2.1 (by decide) (by decide),
   (rsi_spec [1, 2] 14 (by decide)).2.2.2.1 (by decide),
   (rsi_spec [1, 2, 3, 4, 5, 6, 7, 8, 9, 10, 11, 12, 13, 14, 15] 14
     (by decide)).2.2.2.2.2 (by decide) (by decide),
   (rsi_spec (List.replicate 15 (1 : ℚ)) 14 (by decide)).2.2.2.2.1
     (by decide) (by decide) (by decide)⟩

/-- Claim C9: a rejected execute_trade is atomic in both engines — whenever it
returns False the robot state is returned unchanged (no trade inserted, no
balance/pnl change), and it returns False exactly when validate_trade rejects
the signal or the computed position size is <= 0. -/
theorem execute_trade_rejection_atomic (r : Robot) (s : Signal) (now : Nat) :
    ((ForexTradingRobot.execute_trade r s now).1 = false →
      (ForexTradingRobot.execute_trade r s now).2 = r) ∧
    ((SimpleForexTradingRobot.execute_trade r s now).1 = false →
      (SimpleForexTradingRobot.execute_trade r s now).2 = r) ∧
    ((ForexTradingRobot.execute_trade r s now).1 = false ↔
      RiskManager.validate_trade r.risk_manager s = false ∨
      RiskManager.calculate_position_size r.risk_manager
        (s.entry_price.getD 0) (s.stop_loss.getD 0) ≤ 0) ∧
    ((SimpleForexTradingRobot.execute_trade r s now).1 = false ↔
      RiskManager.validate_trade r.risk_manager s = false ∨
      RiskManager.calculate_position_size r.risk_manager
        (s.entry_price.getD 0) (s.stop_loss.getD 0) ≤ 0) := by
  simp only [ForexTradingRobot.execute_trade, SimpleForexTradingRobot.execute_trade]
  split_ifs with h1 h2 <;> simp_all

/-- Witness for C9: executing the below-threshold-confidence signal on a fresh
robot returns the state unchanged. -/
theorem execute_trade_rejection_atomic_witness :
    (ForexTradingRobot.execute_trade {} sigLowConf 0).2 = {} ∧
    (SimpleForexTradingRobot.execute_trade {} sigLowConf 0).2 = {} :=
  ⟨(execute_trade_rejection_atomic {} sigLowConf 0).1 (by decide),
   (execute_trade_rejection_atomic {} sigLowConf 0).2.1 (by decide)⟩

/-- Claim C2: close_trade computes pnl = (exit - entry)*size for a BUY trade
and (entry - exit)*size for a SELL trade, stamps exit_price / exit_time / pnl
/ close_reason and flips status to CLOSED on the stored record, removes the
trade from active_trades, appends the closed record exactly once to
trade_history, and adds the pnl exactly once to both account_balance and
daily_pnl. -/
theorem close_trade_spec (r : Robot) (t : Trade) (p : ℚ) (reason : String)
    (now : Nat) (hcount : r.active_trades.count t = 1) :
    (t.signal_type = "BUY" → tradePnl t p = (p - t.entry_price) * t.position_size) ∧
    (t.signal_type = "SELL" → tradePnl t p = (t.entry_price - p) * t.position_size) ∧
    (close_trade r t p reason now).risk_manager.account_balance =
      r.risk_manager.account_balance + tradePnl t p ∧
    (close_trade r t p reason now).risk_manager.daily_pnl =
      r.risk_manager.daily_pnl + tradePnl t p ∧
    t ∉ (close_trade r t p reason now).active_trades ∧
    (close_trade r t p reason now).trade_history =
      r.trade_history ++ [closedWith t p reason now] ∧
    (close_trade r t p reason now).trade_history.count (closedWith t p reason now) =
      r.trade_history.count (closedWith t p reason now) + 1 ∧
    (closedWith t p reason now).status = "CLOSED" ∧
    (closedWith t p reason now).exit_price = some p ∧
    (closedWith t p reason now).exit_time = some now ∧
    (closedWith t p reason now).pnl = some (tradePnl t p) ∧
    (closedWith t p reason now).close_reason = some reason := by
  refine ⟨fun hb => ?_, fun hs => ?_, rfl, rfl, ?_, rfl, ?_, rfl, rfl, rfl, rfl, rfl⟩
  · rw [tradePnl, if_pos hb]
  · rw [tradePnl, if_neg (by rw [hs]; decide)]
  · rw [close_trade_active]
    intro hmem
    have h0 := pyRemove_count_self t r.active_trades
    rw [hcount] at h0
    have h1 : (pyRemove t r.active_trades).count t = 0 := h0
    exact absurd (List.count_pos_iff.mpr hmem) (by omega)
  · rw [close_trade_history, List.count_append]
    simp

/-- Witness for C2 (the spec's scenario B): closing the open BUY trade with
entry 1.1000 and size 100 at exit price 1.0940 realizes pnl -0.60 — the
account balance falls from 10000 to 10000 - 3/5 — and moves the trade from
the open set to the history. -/
theorem close_trade_spec_witness :
    (close_trade robotB tradeB (1094/1000) "STOP_LOSS" 7).risk_manager.account_balance
      = 10000 - 3/5 ∧
    tradeB ∉ (close_trade robotB tradeB (1094/1000) "STOP_LOSS" 7).active_trades ∧
    tradePnl tradeB (1094/1000) = -(3/5) := by
  have h := close_trade_spec robotB tradeB (1094/1000) "STOP_LOSS" 7 (by decide)
  refine ⟨?_, h.2.2.2.2.1, by decide⟩
  rw [h.2.2.1]
  decide

/-- Claim C10: because monitor_trades tests take_profit by Python truthiness,
a trade whose take_profit is None or exactly 0 is never closed with reason
TAKE_PROFIT, whatever the price oracle returns (provided the prior history
already satisfies that invariant); and the manual-trade route builds a signal
whose take_profit is None whenever the submitted take_profit is missing or 0,
so such manual trades can only close by stop-loss or manual close. -/
theorem take_profit_truthiness_spec (r : Robot) (price : String → ℚ) (now : Nat)
    (h : ∀ u ∈ r.trade_history,
      u.take_profit = none ∨ u.take_profit = some 0 →
        u.close_reason ≠ some "TAKE_PROFIT") :
    (∀ u ∈ (monitor_trades r price now).trade_history,
      u.take_profit = none ∨ u.take_profit = some 0 →
        u.close_reason ≠ some "TAKE_PROFIT") ∧
    (∀ symbol sig : String, ∀ entry stop : ℚ, ∀ conf : Option ℚ,
      (manual_trade_signal symbol sig entry stop none conf).take_profit = none ∧
      (manual_trade_signal symbol sig entry stop (some 0) conf).take_profit = none) := by
  refine ⟨?_, fun symbol sig entry stop conf => ⟨rfl, by simp [manual_trade_signal]⟩⟩
  exact monitor_go_tp_closed price now r.active_trades r h

/-- Witness for C10: a manual trade submitted with take_profit 0 carries no
take-profit level at all. -/
theorem take_profit_truthiness_spec_witness :
    (manual_trade_signal "EURUSD" "BUY" (6/5) (119/100) (some 0)
      (some 1)).take_profit = none :=
  ((take_profit_truthiness_spec {} (constPrice 0) 0 (by decide)).2
    "EURUSD" "BUY" (6/5) (119/100) (some 1)).2

/-- Claim C6: in monitor_trades, an open trade whose fetched price is the
0 sentinel is skipped (stays open, is never closed); when the price is
available and the stop-loss condition holds the trade is closed exactly once
with reason STOP_LOSS (the stop is evaluated first, so this holds even when
the take-profit condition also holds); otherwise, when the truthy take-profit
condition holds, it is closed exactly once with reason TAKE_PROFIT; and one
invocation performs at most one close action per trade (open+history count is
conserved). -/
theorem monitor_trades_spec (r : Robot) (price : String → ℚ) (now : Nat)
    (t : Trade)
    (hcount : r.active_trades.count t = 1)
    (hid : ∀ u ∈ r.active_trades, u ≠ t → u.id ≠ t.id)
    (hhist : ∀ u ∈ r.trade_history, u.id ≠ t.id) :
    (price t.symbol = 0 →
      t ∈ (monitor_trades r price now).active_trades ∧
      (monitor_trades r price now).trade_history.filter
        (fun u => u.id == t.id) = []) ∧
    (price t.symbol ≠ 0 → stop_triggered t (price t.symbol) = true →
      t ∉ (monitor_trades r price now).active_trades ∧
      (monitor_trades r price now).trade_history.filter
        (fun u => u.id == t.id) =
        [closedWith t (price t.symbol) "STOP_LOSS" now]) ∧
    (price t.symbol ≠ 0 → stop_triggered t (price t.symbol) = false →
      tp_triggered t (price t.symbol) = true →
      t ∉ (monitor_trades r price now).active_trades ∧
      (monitor_trades r price now).trade_history.filter
        (fun u => u.id == t.id) =
        [closedWith t (price t.symbol) "TAKE_PROFIT" now]) ∧
    (monitor_trades r price now).active_trades.length +
        (monitor_trades r price now).trade_history.length =
      r.active_trades.length + r.trade_history.length := by
  have hmem : t ∈ r.active_trades := List.count_pos_iff.mp (by omega)
  obtain ⟨L1, L2, hsplit, hnotL1⟩ := mem_split_first t r.active_trades hmem
  have hcountL1 : L1.count t = 0 := List.count_eq_zero.mpr hnotL1
  have hcountL2 : L2.count t = 0 := by
    have hc := hcount
    rw [hsplit, List.count_append, List.count_cons_self] at hc
    omega
  have hidL1 : ∀ u ∈ L1, u.id ≠ t.id := by
    intro u hu
    refine hid u ?_ ?_
    · rw [hsplit]; exact List.mem_append_left _ hu
    · intro hut; rw [hut] at hu; exact hnotL1 hu
  have hidL2 : ∀ u ∈ L2, u.id ≠ t.id := by
    intro u hu
    refine hid u ?_ ?_
    · rw [hsplit]
      exact List.mem_append_right _ (List.mem_cons_of_mem _ hu)
    · intro hut; rw [hut] at hu
      exact List.count_eq_zero.mp hcountL2 hu
  have hfilter0 : r.trade_history.filter (fun u => u.id == t.id) = [] := by
    rw [List.filter_eq_nil_iff]
    intro u hu
    simpa using hhist u hu
  have h1 := monitor_go_untouched price now t L1 r hidL1
  have hrw : monitor_trades r price now
      = monitor_go price now (t :: L2) (monitor_go price now L1 r) := by
    simp only [monitor_trades]
    rw [show r.active_trades = L1 ++ t :: L2 from hsplit, monitor_go_append]
  have hc1 : (monitor_go price now L1 r).active_trades.count t = 1 := by
    rw [h1.1, hcount]
  have hf1 : (monitor_go price now L1 r).trade_history.filter
      (fun u => u.id == t.id) = [] := by
    rw [h1.2, hfilter0]
  have hclosefacts : ∀ reason : String,
      (close_trade (monitor_go price now L1 r) t (price t.symbol) reason
        now).active_trades.count t = 0 ∧
      (close_trade (monitor_go price now L1 r) t (price t.symbol) reason
        now).trade_history.filter (fun u => u.id == t.id) =
        [closedWith t (price t.symbol) reason now] := by
    intro reason
    constructor
    · rw [close_trade_active, pyRemove_count_self, hc1]
    · rw [close_trade_history, List.filter_append, hf1]
      simp [closedWith]
  refine ⟨fun h0 => ?_, fun h0 hs => ?_, fun h0 hs htp => ?_, ?_⟩
  · have hstep : monitor_go price now (t :: L2) (monitor_go price now L1 r)
        = monitor_go price now L2 (monitor_go price now L1 r) := by
      simp only [monitor_go]
      rw [if_pos h0]
    have h2 := monitor_go_untouched price now t L2 (monitor_go price now L1 r) hidL2
    rw [hrw, hstep]
    exact ⟨List.count_pos_iff.mp (by rw [h2.1, hc1]; omega), by rw [h2.2, hf1]⟩
  · have hstep : monitor_go price now (t :: L2) (monitor_go price now L1 r)
        = monitor_go price now L2
            (close_trade (monitor_go price now L1 r) t (price t.symbol)
              "STOP_LOSS" now) := by
      simp only [monitor_go]
      rw [if_neg h0, if_pos hs]
    have h2 := monitor_go_untouched price now t L2
      (close_trade (monitor_go price now L1 r) t (price t.symbol)
        "STOP_LOSS" now) hidL2
    rw [hrw, hstep]
    constructor
    · intro hmem2
      have hpos := List.count_pos_iff.mpr hmem2
      rw [h2.1, (hclosefacts "STOP_LOSS").1] at hpos
      omega
    · rw [h2.2, (hclosefacts "STOP_LOSS").2]
  · have hstep : monitor_go price now (t :: L2) (monitor_go price now L1 r)
        = monitor_go price now L2
            (close_trade (monitor_go price now L1 r) t (price t.symbol)
              "TAKE_PROFIT" now) := by
      simp only [monitor_go]
      rw [if_neg h0, if_neg (by rw [hs]; decide), if_pos htp]
    have h2 := monitor_go_untouched price now t L2
      (close_trade (monitor_go price now L1 r) t (price t.symbol)
        "TAKE_PROFIT" now) hidL2
    rw [hrw, hstep]
    constructor
    · intro hmem2
      have hpos := List.count_pos_iff.mpr hmem2
      rw [h2.1, (hclosefacts "TAKE_PROFIT").1] at hpos
      omega
    · rw [h2.2, (hclosefacts "TAKE_PROFIT").2]
  · simpa only [monitor_trades] using
      monitor_go_length price now r.active_trades r (fun x => le_refl _)

/-- Witness for C6: with every symbol priced at 1.0940, the scenario-B robot's
single BUY trade (stop 1.0950) is stop-triggered: after one monitor_trades
pass it is no longer open and its id appears in the history exactly once, as
the STOP_LOSS closure. -/
theorem monitor_trades_spec_witness :
    tradeB ∉ (monitor_trades robotB (constPrice (1094/1000)) 5).active_trades ∧
    (monitor_trades robotB (constPrice (1094/1000)) 5).trade_history.filter
      (fun u => u.id == tradeB.id) =
      [closedWith tradeB (1094/1000) "STOP_LOSS" 5] :=
  (monitor_trades_spec robotB (constPrice (1094/1000)) 5 tradeB
    (by decide) (by decide) (by decide)).2.1 (by decide) (by decide)

theorem getLast_close_pos (data : List Bar)
    (hpos : ∀ b ∈ data, 0 < b.high ∧ 0 < b.low ∧ 0 < b.close)
    (hne : data ≠ []) : 0 < (data.map Bar.close).getLast?.getD 0 := by
  have hmem := getLastD_mem 0 (data.map Bar.close) (by simpa using hne)
  rcases List.mem_map.mp hmem with ⟨b, hb, heq⟩
  rw [← heq]
  exact (hpos b hb).2.2

theorem trendfollowing_stop_losing_side (data : List Bar)
    (hpos : ∀ b ∈ data, 0 < b.high ∧ 0 < b.low ∧ 0 < b.close) :
    ((TrendFollowingStrategy.generate_signal data).signal = some "BUY" →
      (TrendFollowingStrategy.generate_signal data).entry_price.isSome ∧
      (TrendFollowingStrategy.generate_signal data).stop_loss.isSome ∧
      (TrendFollowingStrategy.generate_signal data).stop_loss.getD 0 <
        (TrendFollowingStrategy.generate_signal data).entry_price.getD 0) ∧
    ((TrendFollowingStrategy.generate_signal data).signal = some "SELL" →
      (TrendFollowingStrategy.generate_signal data).entry_price.isSome ∧
      (TrendFollowingStrategy.generate_signal data).stop_loss.isSome ∧
      (TrendFollowingStrategy.generate_signal data).entry_price.getD 0 <
        (TrendFollowingStrategy.generate_signal data).stop_loss.getD 0) ∧
    ((TrendFollowingStrategy.generate_signal data).signal = some "BUY" ∨
     (TrendFollowingStrategy.generate_signal data).signal = some "SELL" ∨
     (TrendFollowingStrategy.generate_signal data).signal = some "HOLD") := by
  simp only [TrendFollowingStrategy.generate_signal]
  split_ifs with h1 h2 h3
  · exact ⟨fun h => by simp [holdSignal] at h, fun h => by simp [holdSignal] at h,
      Or.inr (Or.inr rfl)⟩
  · have hlast : 0 < (data.map Bar.close).getLast?.getD 0 :=
      getLast_close_pos data hpos (by intro hc; rw [hc] at h1; exact h1 (by decide))
    refine ⟨fun _ => ⟨rfl, rfl, ?_⟩, fun h => by simp_all, Or.inl rfl⟩
    show (data.map Bar.close).getLast?.getD 0 * (98/100) <
      (data.map Bar.close).getLast?.getD 0
    linarith
  · have hlast : 0 < (data.map Bar.close).getLast?.getD 0 :=
      getLast_close_pos data hpos (by intro hc; rw [hc] at h1; exact h1 (by decide))
    refine ⟨fun h => by simp_all, fun _ => ⟨rfl, rfl, ?_⟩, Or.inr (Or.inl rfl)⟩
    show (data.map Bar.close).getLast?.getD 0 <
      (data.map Bar.close).getLast?.getD 0 * (102/100)
    linarith
  · exact ⟨fun h => by simp [holdSignal] at h, fun h => by simp [holdSignal] at h,
      Or.inr (Or.inr rfl)⟩

theorem meanreversion_stop_losing_side (data : List Bar)
    (hpos : ∀ b ∈ data, 0 < b.high ∧ 0 < b.low ∧ 0 < b.close) :
    ((MeanReversionStrategy.generate_signal data).signal = some "BUY" →
      (MeanReversionStrategy.generate_signal data).entry_price.isSome ∧
      (MeanReversionStrategy.generate_signal data).stop_loss.isSome ∧
      (MeanReversionStrategy.generate_signal data).stop_loss.getD 0 <
        (MeanReversionStrategy.generate_signal data).entry_price.getD 0) ∧
    ((MeanReversionStrategy.generate_signal data).signal = some "SELL" →
      (MeanReversionStrategy.generate_signal data).entry_price.isSome ∧
      (MeanReversionStrategy.generate_signal data).stop_loss.isSome ∧
      (MeanReversionStrategy.generate_signal data).entry_price.getD 0 <
        (MeanReversionStrategy.generate_signal data).stop_loss.getD 0) ∧
    ((MeanReversionStrategy.generate_signal data).signal = some "BUY" ∨
     (MeanReversionStrategy.generate_signal data).signal = some "SELL" ∨
     (MeanReversionStrategy.generate_signal data).signal = some "HOLD") := by
  simp only [MeanReversionStrategy.generate_signal]
  split_ifs with h1 h2 h3
  · exact ⟨fun h => by simp [holdSignal] at h, fun h => by simp [holdSignal] at h,
      Or.inr (Or.inr rfl)⟩
  · have hlast : 0 < (data.map Bar.close).getLast?.getD 0 :=
      getLast_close_pos data hpos (by intro hc; rw [hc] at h1; exact h1 (by decide))
    refine ⟨fun _ => ⟨rfl, rfl, ?_⟩, fun h => by simp_all, Or.inl rfl⟩
    show (data.map Bar.close).getLast?.getD 0 * (97/100) <
      (data.map Bar.close).getLast?.getD 0
    linarith
  · have hlast : 0 < (data.map Bar.close).getLast?.getD 0 :=
      getLast_close_pos data hpos (by intro hc; rw [hc] at h1; exact h1 (by decide))
    refine ⟨fun h => by simp_all, fun _ => ⟨rfl, rfl, ?_⟩, Or.inr (Or.inl rfl)⟩
    show (data.map Bar.close).getLast?.getD 0 <
      (data.map Bar.close).getLast?.getD 0 * (103/100)
    linarith
  · exact ⟨fun h => by simp [holdSignal] at h, fun h => by simp [holdSignal] at h,
      Or.inr (Or.inr rfl)⟩

theorem breakout_stop_losing_side (data : List Bar)
    (hpos : ∀ b ∈ data, 0 < b.high ∧ 0 < b.low ∧ 0 < b.close) :
    ((BreakoutStrategy.generate_signal data).signal = some "BUY" →
      (BreakoutStrategy.generate_signal data).entry_price.isSome ∧
      (BreakoutStrategy.generate_signal data).stop_loss.isSome ∧
      (BreakoutStrategy.generate_signal data).stop_loss.getD 0 <
        (BreakoutStrategy.generate_signal data).entry_price.getD 0) ∧
    ((BreakoutStrategy.generate_signal data).signal = some "SELL" →
      (BreakoutStrategy.generate_signal data).entry_price.isSome ∧
      (BreakoutStrategy.generate_signal data).stop_loss.isSome ∧
      (BreakoutStrategy.generate_signal data).entry_price.getD 0 <
        (BreakoutStrategy.generate_signal data).stop_loss.getD 0) ∧
    ((BreakoutStrategy.generate_signal data).signal = some "BUY" ∨
     (BreakoutStrategy.generate_signal data).signal = some "SELL" ∨
     (BreakoutStrategy.generate_signal data).signal = some "HOLD") := by
  simp only [BreakoutStrategy.generate_signal]
  split_ifs with h1 h2 h3
  · exact ⟨fun h => by simp [holdSignal] at h, fun h => by simp [holdSignal] at h,
      Or.inr (Or.inr rfl)⟩
  · have hres : 0 < listMax ((data.drop (data.length - 20)).map Bar.high) := by
      apply listMax_pos
      · intro hc
        have hdrop := congrArg List.length hc
        simp only [List.length_map, List.length_drop, List.length_nil] at hdrop
        omega
      · intro y hy
        rcases List.mem_map.mp hy with ⟨b, hb, heq⟩
        rw [← heq]
        exact (hpos b (List.drop_subset _ _ hb)).1
    refine ⟨fun _ => ⟨rfl, rfl, ?_⟩, fun h => by simp_all, Or.inl rfl⟩
    show listMax ((data.drop (data.length - 20)).map Bar.high) * (999/1000) <
      (data.map Bar.close).getLast?.getD 0
    linarith
  · have hsup : 0 < listMin ((data.drop (data.length - 20)).map Bar.low) := by
      apply listMin_pos
      · intro hc
        have hdrop := congrArg List.length hc
        simp only [List.length_map, List.length_drop, List.length_nil] at hdrop
        omega
      · intro y hy
        rcases List.mem_map.mp hy with ⟨b, hb, heq⟩
        rw [← heq]
        exact (hpos b (List.drop_subset _ _ hb)).2.1
    refine ⟨fun h => by simp_all, fun _ => ⟨rfl, rfl, ?_⟩, Or.inr (Or.inl rfl)⟩
    show (data.map Bar.close).getLast?.getD 0 <
      listMin ((data.drop (data.length - 20)).map Bar.low) * (1001/1000)
    linarith
  · exact ⟨fun h => by simp [holdSignal] at h, fun h => by simp [holdSignal] at h,
      Or.inr (Or.inr rfl)⟩

/-- Claim C5: on any price series with strictly positive highs, lows and
closes, every BUY signal of the three strategies carries entry_price and
stop_loss with stop_loss < entry_price, every SELL signal carries them with
stop_loss > entry_price, and the emitted signal is always one of BUY, SELL,
HOLD (so entry and stop are present in every non-HOLD signal). -/
theorem generate_signal_stop_on_losing_side (data : List Bar)
    (hpos : ∀ b ∈ data, 0 < b.high ∧ 0 < b.low ∧ 0 < b.close) :
    (((TrendFollowingStrategy.generate_signal data).signal = some "BUY" →
      (TrendFollowingStrategy.generate_signal data).entry_price.isSome ∧
      (TrendFollowingStrategy.generate_signal data).stop_loss.isSome ∧
      (TrendFollowingStrategy.generate_signal data).stop_loss.getD 0 <
        (TrendFollowingStrategy.generate_signal data).entry_price.getD 0) ∧
    ((TrendFollowingStrategy.generate_signal data).signal = some "SELL" →
      (TrendFollowingStrategy.generate_signal data).entry_price.isSome ∧
      (TrendFollowingStrategy.generate_signal data).stop_loss.isSome ∧
      (TrendFollowingStrategy.generate_signal data).entry_price.getD 0 <
        (TrendFollowingStrategy.generate_signal data).stop_loss.getD 0) ∧
    ((TrendFollowingStrategy.generate_signal data).signal = some "BUY" ∨
     (TrendFollowingStrategy.generate_signal data).signal = some "SELL" ∨
     (TrendFollowingStrategy.generate_signal data).signal = some "HOLD")) ∧
    (((MeanReversionStrategy.generate_signal data).signal = some "BUY" →
      (MeanReversionStrategy.generate_signal data).entry_price.isSome ∧
      (MeanReversionStrategy.generate_signal data).stop_loss.isSome ∧
      (MeanReversionStrategy.generate_signal data).stop_loss.getD 0 <
        (MeanReversionStrategy.generate_signal data).entry_price.getD 0) ∧
    ((MeanReversionStrategy.generate_signal data).signal = some "SELL" →
      (MeanReversionStrategy.generate_signal data).entry_price.isSome ∧
      (MeanReversionStrategy.generate_signal data).stop_loss.isSome ∧
      (MeanReversionStrategy.generate_signal data).entry_price.getD 0 <
        (MeanReversionStrategy.generate_signal data).stop_loss.getD 0) ∧
    ((MeanReversionStrategy.generate_signal data).signal = some "BUY" ∨
     (MeanReversionStrategy.generate_signal data).signal = some "SELL" ∨
     (MeanReversionStrategy.generate_signal data).signal = some "HOLD")) ∧
    (((BreakoutStrategy.generate_signal data).signal = some "BUY" →
      (BreakoutStrategy.generate_signal data).entry_price.isSome ∧
      (BreakoutStrategy.generate_signal data).stop_loss.isSome ∧
      (BreakoutStrategy.generate_signal data).stop_loss.getD 0 <
        (BreakoutStrategy.generate_signal data).entry_price.getD 0) ∧
    ((BreakoutStrategy.generate_signal data).signal = some "SELL" →
      (BreakoutStrategy.generate_signal data).entry_price.isSome ∧
      (BreakoutStrategy.generate_signal data).stop_loss.isSome ∧
      (BreakoutStrategy.generate_signal data).entry_price.getD 0 <
        (BreakoutStrategy.generate_signal data).stop_loss.getD 0) ∧
    ((BreakoutStrategy.generate_signal data).signal = some "BUY" ∨
     (BreakoutStrategy.generate_signal data).signal = some "SELL" ∨
     (BreakoutStrategy.generate_signal data).signal = some "HOLD")) :=
  ⟨trendfollowing_stop_losing_side data hpos,
   meanreversion_stop_losing_side data hpos,
   breakout_stop_losing_side data hpos⟩

set_option maxRecDepth 4000 in
/-- Witness for C5: on the concrete breakout series the Breakout strategy
emits a BUY whose stop (resistance*0.999 = 1.998) sits strictly below its
entry (2.1). -/
theorem generate_signal_stop_on_losing_side_witness :
    (BreakoutStrategy.generate_signal dataBO).signal = some "BUY" ∧
    (BreakoutStrategy.generate_signal dataBO).stop_loss.getD 0 <
      (BreakoutStrategy.generate_signal dataBO).entry_price.getD 0 := by
  have h := generate_signal_stop_on_losing_side dataBO (by decide)
  have hsig : (BreakoutStrategy.generate_signal dataBO).signal = some "BUY" := by
    decide
  exact ⟨hsig, (h.2.2.1 hsig).2.2⟩
